import Mathlib

/-!
# Verification of the hyperparameter-tuning notebook workflow

Shallow embedding of `src/kerascont/version2_jason.ipynb`, a SageMaker
hyperparameter-tuning demo notebook.  The notebook's configuration
documents are Python dict literals; here they become Lean structures.
External effects (S3 upload, docker invocation, the SageMaker client)
are abstracted as function parameters; the local control flow around
them is embedded faithfully.
-/

namespace KerasCont

/-! ## Data model: the tuning-service payload schema

Mirrors the JSON objects built in the notebook for
`create_hyper_parameter_tuning_job` (cells "Specify hyperparameter
tuning job configuration" and "Specify training job configuration"). -/

/-- One entry of `ContinuousParameterRanges`.  In the notebook the
bounds are string literals (`"0.0001"`, `"0.001"`). -/
structure ContinuousParameterRange where
  Name : String
  MinValue : String
  MaxValue : String
deriving DecidableEq, Repr

/-- One entry of `IntegerParameterRanges` (empty list in the notebook). -/
structure IntegerParameterRange where
  Name : String
  MinValue : String
  MaxValue : String
deriving DecidableEq, Repr

/-- One entry of `CategoricalParameterRanges` (empty list in the notebook). -/
structure CategoricalParameterRange where
  Name : String
  Values : List String
deriving DecidableEq, Repr

/-- The `ParameterRanges` section of the tuning-job configuration. -/
structure ParameterRanges where
  CategoricalParameterRanges : List CategoricalParameterRange
  ContinuousParameterRanges : List ContinuousParameterRange
  IntegerParameterRanges : List IntegerParameterRange
deriving DecidableEq, Repr

/-- The `ResourceLimits` section of the tuning-job configuration. -/
structure ResourceLimits where
  MaxNumberOfTrainingJobs : Nat
  MaxParallelTrainingJobs : Nat
deriving DecidableEq, Repr

/-- The tuning objective; the source key for the direction is `"Type"`
(a reserved word in Lean, hence the primed field name). -/
structure HyperParameterTuningJobObjective where
  MetricName : String
  Type' : String
deriving DecidableEq, Repr

/-- The `tuning_job_config` JSON object's shape. -/
structure TuningJobConfig where
  ParameterRanges : ParameterRanges
  ResourceLimits : ResourceLimits
  Strategy : String
  HyperParameterTuningJobObjective : HyperParameterTuningJobObjective
deriving DecidableEq, Repr

/-- One `MetricDefinitions` entry of the `AlgorithmSpecification`. -/
structure MetricDefinition where
  Name : String
  Regex : String
deriving DecidableEq, Repr

/-- The `AlgorithmSpecification` section of the training-job definition. -/
structure AlgorithmSpecification where
  MetricDefinitions : List MetricDefinition
  TrainingImage : String
  TrainingInputMode : String
deriving DecidableEq, Repr

/-- One `InputDataConfig` entry; the nested
`DataSource.S3DataSource` sub-object is flattened into its three keys. -/
structure InputChannel where
  ChannelName : String
  S3DataType : String
  S3Uri : String
  S3DataDistributionType : String
  CompressionType : String
  RecordWrapperType : String
deriving DecidableEq, Repr

/-- The `OutputDataConfig` section. -/
structure OutputDataConfig where
  S3OutputPath : String
deriving DecidableEq, Repr

/-- The `ResourceConfig` section. -/
structure ResourceConfig where
  InstanceCount : Nat
  InstanceType : String
  VolumeSizeInGB : Nat
deriving DecidableEq, Repr

/-- The `StoppingCondition` section. -/
structure StoppingCondition where
  MaxRuntimeInSeconds : Nat
deriving DecidableEq, Repr

/-- The `training_job_definition` JSON object's shape.  Static
hyperparameters are an association list of string names to string
values, as in the source dict literal. -/
structure TrainingJobDefinition where
  AlgorithmSpecification : AlgorithmSpecification
  InputDataConfig : List InputChannel
  OutputDataConfig : OutputDataConfig
  ResourceConfig : ResourceConfig
  RoleArn : String
  StaticHyperParameters : List (String × String)
  StoppingCondition : StoppingCondition
deriving DecidableEq, Repr

/-! ## Decimal rendering and Python scalar values

The notebook's local smoke-test cell passes hyperparameters as typed
Python scalars (`batch_size=32, data_augmentation=True,
learning_rate=.0001, width_shift_range=.1, height_shift_range=.1,
epochs=1`), while the submitted documents hold decimal strings.
`PyVal` models the Python scalar values; `pyStr` models Python's
string rendering of them (`str(32) = "32"`, `str(True) = "True"`,
`str(0.0001) = "0.0001"`).  Float literals are modelled as rationals
with exact decimal expansions, avoiding machine floating point. -/

/-- Unit fraction `1 / d` as a rational, built without normalization
so that the kernel can compute with it (`Rat` division normalizes via
`Nat.gcd`, which does not reduce definitionally). -/
def oneOver (d : Nat) : ℚ :=
  if h : d = 0 then 0 else Rat.mk' 1 d h (Nat.coprime_one_left d)

/-- Fuel-bounded decimal digits of the fraction `num / den` with
`num < den`: next digit is `num * 10 / den`, stopping when the
remainder hits zero. -/
def decDigits : Nat → Nat → Nat → List Nat
  | 0, _, _ => []
  | fuel + 1, num, den =>
    if num = 0 then [] else
      num * 10 / den :: decDigits fuel (num * 10 % den) den

/-- Decimal rendering of a nonnegative rational with a terminating
decimal expansion, as Python renders the corresponding float literal:
integer part, a dot, then the fraction digits (`.0` when the value is
integral). -/
def ratRepr (q : ℚ) : String :=
  let ip := q.num.toNat / q.den
  let rem := q.num.toNat % q.den
  if rem = 0 then toString ip ++ ".0"
  else toString ip ++ "." ++ String.join ((decDigits 30 rem q.den).map toString)

/-- Python scalar values as they appear in the smoke-test
`hyperparameters` dict. -/
inductive PyVal where
  | int : Int → PyVal
  | bool : Bool → PyVal
  | float : ℚ → PyVal
deriving DecidableEq, Repr

/-- Python's `str` on the scalar values used by the notebook. -/
def pyStr : PyVal → String
  | .int n => toString n
  | .bool b => if b then "True" else "False"
  | .float q => ratRepr q

/-- Lookup in a Python-dict-like association list of scalar values. -/
def pyLookup (d : List (String × PyVal)) (k : String) : Option PyVal :=
  (d.find? fun kv => kv.1 == k).map Prod.snd

/-- Lookup in a Python-dict-like association list of strings, as in
`channels['train']`; total, with `""` for a missing key (the notebook
only looks up keys it has just inserted). -/
def dictGet (d : List (String × String)) (k : String) : String :=
  ((d.find? fun kv => kv.1 == k).map Prod.snd).getD ""

/-! ## Notebook globals -/

/-- Cell "Set up the environment": `NUM_CLASSES = 10`. -/
def NUM_CLASSES : Nat := 10

/-- Cell "Set up the environment": the S3 key base for job artifacts
(the notebook global named `prefix`, a reserved word here):
`'sagemaker/DEMO-hpo-keras-cifar10'`. -/
def s3BasePath : String := "sagemaker/DEMO-hpo-keras-cifar10"

/-- Smoke-test cell "Setting the hyperparameters":
`hyperparameters = dict(batch_size=32, data_augmentation=True,
learning_rate=.0001, width_shift_range=.1, height_shift_range=.1,
epochs=1)`. -/
def hyperparameters : List (String × PyVal) :=
  [("batch_size", PyVal.int 32),
   ("data_augmentation", PyVal.bool true),
   ("learning_rate", PyVal.float (oneOver 10000)),
   ("width_shift_range", PyVal.float (oneOver 10)),
   ("height_shift_range", PyVal.float (oneOver 10)),
   ("epochs", PyVal.int 1)]

/-! ## Container Builder

Cell "Building the image".  The docker invocation
(`subprocess.check_call(shlex.split(cmd))`) is abstracted over a
`run : String → Int` giving each command's exit status. -/

/-- Source: `'%s:tensorflow-%s' % (ecr_repository, tensorflow_version_tag)`. -/
def get_image_name (ecr_repository tensorflow_version_tag : String) : String :=
  ecr_repository ++ ":tensorflow-" ++ tensorflow_version_tag

/-- Source: `'docker build -t %s --build-arg VERSION=%s -f Dockerfile .' % (name, version)`. -/
def build_cmd (name version : String) : String :=
  "docker build -t " ++ name ++ " --build-arg VERSION=" ++ version ++ " -f Dockerfile ."

/-- Modelled from the spec: `subprocess.check_call` is Python standard
library code not present in this repository.  Documented behaviour:
run the command once; return normally when the exit status is zero,
otherwise raise `CalledProcessError` carrying the non-zero exit
status.  No retry. -/
def check_call (run : String → Int) (cmd : String) : Except Int Unit :=
  if run cmd = 0 then Except.ok () else Except.error (run cmd)

/-- Source `build_image(name, version)`: format the build command and
`check_call` it.  The first component records the commands issued, so
the embedding can state that exactly one build invocation happens. -/
def build_image (run : String → Int) (name version : String) :
    List String × Except Int Unit :=
  ([build_cmd name version], check_call run (build_cmd name version))

/-! ## Dataset Packager

Cell "Prepare the data".  The S3 upload
(`sagemaker_session.upload_data`) is abstracted over an
`upload_data : String → String` from the archive's key base to the
resulting S3 location.  Features stay abstract (type `α`). -/

/-- Modelled from the spec: `tf.keras.utils.to_categorical` is
third-party library code not present in this repository.  Per the
spec, packaging must "one-hot encode labels to a width equal to the
declared class count, and must fail if any label value is ≥ that
count": each label `v < numClasses` becomes the indicator row of
length `numClasses`; an out-of-range label makes the call fail. -/
def to_categorical (y : List Nat) (numClasses : Nat) : Option (List (List Nat)) :=
  if y.all fun v => decide (v < numClasses) then
    some (y.map fun v => (List.range numClasses).map fun j => if j = v then 1 else 0)
  else none

/-- Source: the `key_prefix='data/DEMO-keras-cifar10/%s' % channel_name`
argument of `upload_data` in `upload_channel`. -/
def dataKeyOf (channel_name : String) : String :=
  "data/DEMO-keras-cifar10/" ++ channel_name

/-- Result of packaging one channel: the S3 location returned by the
upload, plus the archive contents written there (features unchanged,
labels one-hot encoded), which the source serializes with
`np.savez_compressed(..., x=x, y=y)`. -/
structure PackagedChannel (α : Type) where
  location : String
  x : List α
  y : List (List Nat)

/-- Source `upload_channel(channel_name, x, y)`: one-hot encode `y`
with `NUM_CLASSES`, write the compressed archive, upload it under the
channel's key, and return the location. -/
def upload_channel {α : Type} (upload_data : String → String)
    (channel_name : String) (x : List α) (y : List Nat) :
    Option (PackagedChannel α) :=
  match to_categorical y NUM_CLASSES with
  | none => none
  | some yEnc => some { location := upload_data (dataKeyOf channel_name), x := x, y := yEnc }

/-- Source `upload_training_data()`: load the dataset (abstracted as
the four arrays `cifar10.load_data()` returns), upload the `train` and
`test` channels, and return the dict of their locations. -/
def upload_training_data {α : Type} (upload_data : String → String)
    (x_train : List α) (y_train : List Nat)
    (x_test : List α) (y_test : List Nat) :
    Option (List (String × String)) := do
  let tr ← upload_channel upload_data ("train") x_train y_train
  let te ← upload_channel upload_data ("test") x_test y_test
  pure [("train", tr.location), ("test", te.location)]

/-! ## Tuning Job Submitter

Cells "Specify hyperparameter tuning job configuration", "Specify
training job configuration" and "Create and launch a hyperparameter
tuning job".  The two documents are dict literals in the source;
`mk_tuning_job_config` and `mk_training_job_definition` are those
literals with the slots the spec quantifies over (search ranges,
resource limits, static hyperparameters, run-specific strings) as
parameters, everything else verbatim. -/

/-- Default tuning-job naming, from
`'BYO-keras-tuningjob-' + strftime("%d-%H-%M-%S", gmtime())`:
a broken-down UTC time. -/
structure Tm where
  tm_year : Nat
  tm_mon : Nat
  tm_mday : Nat
  tm_hour : Nat
  tm_min : Nat
  tm_sec : Nat
deriving DecidableEq, Repr

/-- Zero-padded two-digit rendering used by `strftime`'s `%d`, `%H`,
`%M`, `%S` directives. -/
def pad2 (n : Nat) : String :=
  if n < 10 then "0" ++ toString n else toString n

/-- Source format string `"%d-%H-%M-%S"`: day of month, hour, minute,
second — no year and no month. -/
def strftime_d_H_M_S (t : Tm) : String :=
  pad2 t.tm_mday ++ "-" ++ pad2 t.tm_hour ++ "-" ++ pad2 t.tm_min ++ "-" ++ pad2 t.tm_sec

/-- Source: `tuning_job_name = 'BYO-keras-tuningjob-' + strftime("%d-%H-%M-%S", gmtime())`. -/
def tuning_job_name (t : Tm) : String :=
  "BYO-keras-tuningjob-" ++ strftime_d_H_M_S t

/-- Shape of the notebook's `tuning_job_config` dict literal, with the
continuous search ranges (name, min, max — rendered to decimal
strings, as the source writes string bounds) and the two resource
limits as parameters; strategy and objective are the source literals. -/
def mk_tuning_job_config (ranges : List (String × ℚ × ℚ))
    (maxTotal maxParallel : Nat) : TuningJobConfig :=
  { ParameterRanges :=
      { CategoricalParameterRanges := []
        ContinuousParameterRanges :=
          ranges.map fun r =>
            { Name := r.1, MinValue := ratRepr r.2.1, MaxValue := ratRepr r.2.2 }
        IntegerParameterRanges := [] }
    ResourceLimits :=
      { MaxNumberOfTrainingJobs := maxTotal, MaxParallelTrainingJobs := maxParallel }
    Strategy := "Bayesian"
    HyperParameterTuningJobObjective := { MetricName := "loss", Type' := "Minimize" } }

/-- The concrete `tuning_job_config` literal from the source. -/
def tuning_job_config : TuningJobConfig :=
  { ParameterRanges :=
      { CategoricalParameterRanges := []
        ContinuousParameterRanges :=
          [{ Name := "learning_rate", MinValue := "0.0001", MaxValue := "0.001" }]
        IntegerParameterRanges := [] }
    ResourceLimits :=
      { MaxNumberOfTrainingJobs := 9, MaxParallelTrainingJobs := 9 }
    Strategy := "Bayesian"
    HyperParameterTuningJobObjective := { MetricName := "loss", Type' := "Minimize" } }

/-- Shape of the notebook's `training_job_definition` dict literal,
with the static hyperparameters, the channels dict and the
run-specific strings (bucket, image, role) as parameters; all other
keys are the source literals.  `S3Uri` comes from `channels['train']`
and `channels['test']`; `S3OutputPath` from
`"s3://{}/{}/output".format(bucket, prefix)`. -/
def mk_training_job_definition (static : List (String × String))
    (channels : List (String × String)) (bucket training_image role : String) :
    TrainingJobDefinition :=
  { AlgorithmSpecification :=
      { MetricDefinitions := [{ Name := "loss", Regex := "loss: ([0-9\\.]+)" }]
        TrainingImage := training_image
        TrainingInputMode := "File" }
    InputDataConfig :=
      [{ ChannelName := "train"
         S3DataType := "S3Prefix"
         S3Uri := dictGet channels ("train")
         S3DataDistributionType := "FullyReplicated"
         CompressionType := "None"
         RecordWrapperType := "None" },
       { ChannelName := "test"
         S3DataType := "S3Prefix"
         S3Uri := dictGet channels ("test")
         S3DataDistributionType := "FullyReplicated"
         CompressionType := "None"
         RecordWrapperType := "None" }]
    OutputDataConfig := { S3OutputPath := "s3://" ++ bucket ++ "/" ++ s3BasePath ++ "/output" }
    ResourceConfig := { InstanceCount := 1, InstanceType := "ml.c5.xlarge", VolumeSizeInGB := 100 }
    RoleArn := role
    StaticHyperParameters := static
    StoppingCondition := { MaxRuntimeInSeconds := 43200 } }

/-- The concrete `StaticHyperParameters` dict literal from the source. -/
def static_hyperparameters : List (String × String) :=
  [("batch_size", "32"),
   ("data_augmentation", "True"),
   ("height_shift_range", "0.1"),
   ("width_shift_range", "0.1"),
   ("epochs", "1")]

/-- The concrete `training_job_definition` literal from the source
(parameterized only by the run-specific values). -/
def training_job_definition (channels : List (String × String))
    (bucket training_image role : String) : TrainingJobDefinition :=
  mk_training_job_definition static_hyperparameters channels bucket training_image role

/-- Payload of the `smclient.create_hyper_parameter_tuning_job` call. -/
structure SubmitRequest where
  HyperParameterTuningJobName : String
  HyperParameterTuningJobConfig : TuningJobConfig
  TrainingJobDefinition : TrainingJobDefinition
deriving DecidableEq, Repr

/-- The notebook's configuration-assembly-and-submission step: build
the two documents and call `create_hyper_parameter_tuning_job` on
them.  The `Except String` layer is where a local validation error
would live; the source performs no local checks between assembling the
literals and the client call, so the service call is always reached
with the assembled documents. -/
def assemble_and_submit (name : String) (static : List (String × String))
    (ranges : List (String × ℚ × ℚ)) (maxTotal maxParallel : Nat)
    (channels : List (String × String)) (bucket training_image role : String) :
    Except String SubmitRequest :=
  Except.ok
    { HyperParameterTuningJobName := name
      HyperParameterTuningJobConfig := mk_tuning_job_config ranges maxTotal maxParallel
      TrainingJobDefinition := mk_training_job_definition static channels bucket training_image role }

/-- Names of the static hyperparameters of a training-job definition. -/
def staticNames (d : TrainingJobDefinition) : List String :=
  d.StaticHyperParameters.map Prod.fst

/-- Names of the searched parameters of a tuning-job configuration
(all three range kinds). -/
def searchedNames (c : TuningJobConfig) : List String :=
  c.ParameterRanges.CategoricalParameterRanges.map CategoricalParameterRange.Name ++
  c.ParameterRanges.ContinuousParameterRanges.map ContinuousParameterRange.Name ++
  c.ParameterRanges.IntegerParameterRanges.map IntegerParameterRange.Name

/-! ## Helper lemmas -/

/-- Left cancellation for string append. -/
theorem string_append_left_cancel {p a b : String} (h : p ++ a = p ++ b) : a = b := by
  have hd : p.data ++ a.data = p.data ++ b.data := by
    have := congrArg String.data h
    simpa [String.data_append] using this
  cases a
  cases b
  exact congrArg String.mk (List.append_cancel_left hd)

/-- Unit-fraction values built by `oneOver` agree with rational division. -/
theorem oneOver_eq_div (d : Nat) (hd : d ≠ 0) : oneOver d = 1 / (d : ℚ) := by
  rw [oneOver, dif_neg hd]
  simp [Rat.mk'_eq_divInt, Rat.divInt_eq_div]

/-- Some label is out of range iff not all labels are in range. -/
theorem any_ge_eq_not_all_lt (y : List Nat) :
    (y.any fun v => decide (NUM_CLASSES ≤ v)) = !(y.all fun v => decide (v < NUM_CLASSES)) := by
  induction y with
  | nil => rfl
  | cons a t ih =>
    by_cases ha : a < NUM_CLASSES
    · simp [List.any_cons, List.all_cons, ih, ha, Nat.not_le.mpr ha]
    · simp [List.any_cons, List.all_cons, ha, Nat.le_of_not_lt ha]

/-! ## Claims -/

/-- C1 counterexample: a configuration in which the name
`learning_rate` appears both as a static hyperparameter and as a
search-space parameter is not rejected locally — assembly succeeds and
the submission call to the tuning service is still reached. -/
theorem name_collision_not_rejected_locally :
    ("learning_rate" ∈ staticNames (mk_training_job_definition
        [("learning_rate", "0.0001")] [] ("bkt") ("img") ("role")) ∧
     "learning_rate" ∈ searchedNames (mk_tuning_job_config
        [("learning_rate", oneOver 10000, oneOver 1000)] 9 9)) ∧
    (assemble_and_submit ("BYO") [("learning_rate", "0.0001")]
        [("learning_rate", oneOver 10000, oneOver 1000)] 9 9 []
        ("bkt") ("img") ("role")).isOk = true := by
  decide

/-- C1 (amended): the notebook performs no local name-collision
validation — configuration assembly always succeeds and the submission
call is reached, for every static-hyperparameter set and search space;
in the notebook's concrete configuration the searched parameter names
happen to be disjoint from the static hyperparameter names. -/
theorem assembly_reaches_submission_and_concrete_names_disjoint :
    (∀ (name : String) (static : List (String × String))
        (ranges : List (String × ℚ × ℚ)) (maxTotal maxParallel : Nat)
        (channels : List (String × String)) (bucket img role : String),
        (assemble_and_submit name static ranges maxTotal maxParallel
            channels bucket img role).isOk = true) ∧
    (∀ (channels : List (String × String)) (bucket img role : String),
        (searchedNames tuning_job_config).all
          (fun n => !(staticNames (training_job_definition channels bucket img role)).contains n)
          = true) :=
  ⟨fun _ _ _ _ _ _ _ _ _ => rfl, fun _ _ _ _ => rfl⟩

/-- C2 counterexample: resource limits with
`MaxParallelTrainingJobs = 2 > 1 = MaxNumberOfTrainingJobs` are not
rejected locally — assembly succeeds and the submission call is
reached, and the assembled configuration violates the claimed
invariant. -/
theorem resource_limit_violation_not_rejected_locally :
    (mk_tuning_job_config [] 1 2).ResourceLimits.MaxNumberOfTrainingJobs <
      (mk_tuning_job_config [] 1 2).ResourceLimits.MaxParallelTrainingJobs ∧
    (assemble_and_submit ("BYO") [] [] 1 2 [] ("bkt") ("img") ("role")).isOk = true := by
  decide

/-- C2 (amended): the notebook performs no local resource-limit
validation — assembly always succeeds and the submission call is
reached for every limit pair; the notebook's concrete configuration
happens to satisfy `MaxParallelTrainingJobs ≤ MaxNumberOfTrainingJobs`
(9 ≤ 9). -/
theorem assembly_reaches_submission_and_concrete_limits_ordered :
    (∀ (name : String) (static : List (String × String))
        (ranges : List (String × ℚ × ℚ)) (maxTotal maxParallel : Nat)
        (channels : List (String × String)) (bucket img role : String),
        (assemble_and_submit name static ranges maxTotal maxParallel
            channels bucket img role).isOk = true) ∧
    tuning_job_config.ResourceLimits.MaxParallelTrainingJobs ≤
      tuning_job_config.ResourceLimits.MaxNumberOfTrainingJobs :=
  ⟨fun _ _ _ _ _ _ _ _ _ => rfl, by decide⟩

/-- C3 counterexample: a continuous range whose min (1/2) is not
strictly less than its max (1/10) is not rejected locally — assembly
succeeds and the submission call is reached. -/
theorem unordered_bounds_not_rejected_locally :
    ¬(oneOver 2 < oneOver 10) ∧
    (assemble_and_submit ("BYO") [] [("x", oneOver 2, oneOver 10)] 9 9 []
        ("bkt") ("img") ("role")).isOk = true := by
  decide

/-- C3 (amended): the notebook performs no local bound validation —
assembly always succeeds and the submission call is reached for every
range list; the notebook's one concrete continuous range happens to
have min (1/10000) strictly less than max (1/1000), and assembling it
yields exactly the source's `tuning_job_config`. -/
theorem assembly_reaches_submission_and_concrete_bounds_ordered :
    (∀ (name : String) (static : List (String × String))
        (ranges : List (String × ℚ × ℚ)) (maxTotal maxParallel : Nat)
        (channels : List (String × String)) (bucket img role : String),
        (assemble_and_submit name static ranges maxTotal maxParallel
            channels bucket img role).isOk = true) ∧
    oneOver 10000 < oneOver 1000 ∧
    mk_tuning_job_config [("learning_rate", oneOver 10000, oneOver 1000)] 9 9
      = tuning_job_config :=
  ⟨fun _ _ _ _ _ _ _ _ _ => rfl, by decide, by decide⟩

/-- C4: assembling a tuning configuration with the one continuous
parameter `learning_rate` bounded by [1/10000, 1/1000], 9 max total
trials, 9 max concurrent trials, strategy "Bayesian" and an objective
minimizing "loss" produces exactly the source payload: one continuous
entry named "learning_rate" with the bounds rendered as "0.0001" and
"0.001", and empty categorical and integer range lists. -/
theorem tuning_config_payload_shape :
    mk_tuning_job_config [("learning_rate", oneOver 10000, oneOver 1000)] 9 9
      = tuning_job_config ∧
    tuning_job_config.ParameterRanges.ContinuousParameterRanges
      = [{ Name := "learning_rate", MinValue := "0.0001", MaxValue := "0.001" }] ∧
    tuning_job_config.ParameterRanges.CategoricalParameterRanges = [] ∧
    tuning_job_config.ParameterRanges.IntegerParameterRanges = [] ∧
    tuning_job_config.ResourceLimits
      = { MaxNumberOfTrainingJobs := 9, MaxParallelTrainingJobs := 9 } ∧
    tuning_job_config.Strategy = "Bayesian" ∧
    tuning_job_config.HyperParameterTuningJobObjective
      = { MetricName := "loss", Type' := "Minimize" } ∧
    oneOver 10000 = (1 : ℚ) / 10000 ∧
    oneOver 1000 = (1 : ℚ) / 1000 :=
  ⟨by decide, rfl, rfl, rfl, rfl, rfl, rfl,
   oneOver_eq_div 10000 (by decide), oneOver_eq_div 1000 (by decide)⟩

/-- C5: when packaging succeeds, the per-channel storage location the
Dataset Packager returns is exactly the `S3Uri` of the Tuning Job
Submitter's input-channel entry of the same channel name, for both
declared channels ("train" and "test"). -/
theorem channel_locations_roundtrip {α : Type} (up : String → String)
    (x_train : List α) (y_train : List Nat) (x_test : List α) (y_test : List Nat)
    (chans : List (String × String))
    (h : upload_training_data up x_train y_train x_test y_test = some chans)
    (bucket img role : String) :
    ((training_job_definition chans bucket img role).InputDataConfig.filter
        fun e => e.ChannelName == "train").map InputChannel.S3Uri
      = ((upload_channel up ("train") x_train y_train).map PackagedChannel.location).toList ∧
    ((training_job_definition chans bucket img role).InputDataConfig.filter
        fun e => e.ChannelName == "test").map InputChannel.S3Uri
      = ((upload_channel up ("test") x_test y_test).map PackagedChannel.location).toList := by
  unfold upload_training_data at h
  cases htr : upload_channel up ("train") x_train y_train with
  | none => rw [htr] at h; simp at h
  | some tr =>
    cases hte : upload_channel up ("test") x_test y_test with
    | none => rw [htr, hte] at h; simp at h
    | some te =>
      rw [htr, hte] at h
      simp at h
      subst h
      exact ⟨rfl, rfl⟩

/-- C5 witness: a concrete run with one example per channel, where
both channels upload to their deterministic keys. -/
theorem channel_locations_roundtrip_witness :
    ((training_job_definition
        [("train", "data/DEMO-keras-cifar10/train"), ("test", "data/DEMO-keras-cifar10/test")]
        ("bkt") ("img") ("role")).InputDataConfig.filter
        fun e => e.ChannelName == "train").map InputChannel.S3Uri
      = ["data/DEMO-keras-cifar10/train"] ∧
    ((training_job_definition
        [("train", "data/DEMO-keras-cifar10/train"), ("test", "data/DEMO-keras-cifar10/test")]
        ("bkt") ("img") ("role")).InputDataConfig.filter
        fun e => e.ChannelName == "test").map InputChannel.S3Uri
      = ["data/DEMO-keras-cifar10/test"] := by
  have h := channel_locations_roundtrip (fun s => s) ([()]) [0] ([()]) [1]
      [("train", "data/DEMO-keras-cifar10/train"), ("test", "data/DEMO-keras-cifar10/test")]
      (by decide) ("bkt") ("img") ("role")
  exact ⟨h.1.trans (by decide), h.2.trans (by decide)⟩

/-- C6: packaging a channel one-hot encodes every label row to width
exactly `NUM_CLASSES`, and fails exactly when some label value is
greater than or equal to `NUM_CLASSES`. -/
theorem onehot_width_and_label_range {α : Type} (up : String → String)
    (c : String) (x : List α) (y : List Nat) :
    ((upload_channel up c x y).map fun pc => pc.y.map List.length)
      = (if y.all (fun v => decide (v < NUM_CLASSES)) then
          some (y.map fun _ => NUM_CLASSES) else none) ∧
    (upload_channel up c x y).isNone = (y.any fun v => decide (NUM_CLASSES ≤ v)) := by
  constructor
  · unfold upload_channel to_categorical
    cases h : y.all fun v => decide (v < NUM_CLASSES) with
    | false => simp [h]
    | true => simp [h, List.map_map, Function.comp_def]
  · rw [any_ge_eq_not_all_lt]
    unfold upload_channel to_categorical
    cases h : y.all fun v => decide (v < NUM_CLASSES) with
    | false => simp [h]
    | true => simp [h]

/-- C7: the Dataset Packager's object-storage key depends only on the
channel name and follows the `data/DEMO-keras-cifar10/<channel>`
scheme, and the training-job definition directs its artifacts to
`s3://<bucket>/<base>/output` with base
`sagemaker/DEMO-hpo-keras-cifar10`. -/
theorem storage_key_scheme :
    (∀ c : String, dataKeyOf c = "data/DEMO-keras-cifar10/" ++ c) ∧
    (∀ (channels : List (String × String)) (bucket img role : String),
        (training_job_definition channels bucket img role).OutputDataConfig.S3OutputPath
          = "s3://" ++ bucket ++ "/" ++ s3BasePath ++ "/output") ∧
    s3BasePath = "sagemaker/DEMO-hpo-keras-cifar10" :=
  ⟨fun _ => rfl, fun _ _ _ _ => rfl, rfl⟩

/-- C8: `build_image` issues exactly one build invocation; it returns
normally when the exit status is zero and aborts with an error
carrying the tool's non-zero exit status otherwise, with no retry. -/
theorem build_image_error_propagation (run : String → Int) (name version : String) :
    (build_image run name version).1 = [build_cmd name version] ∧
    (run (build_cmd name version) = 0 →
      (build_image run name version).2 = Except.ok ()) ∧
    (run (build_cmd name version) ≠ 0 →
      (build_image run name version).2 = Except.error (run (build_cmd name version))) := by
  refine ⟨rfl, fun h => ?_, fun h => ?_⟩
  · simp [build_image, check_call, h]
  · simp [build_image, check_call, h]

/-- C8 witness: a failing build (exit status 2) aborts with that
status; a successful build (exit status 0) returns normally. -/
theorem build_image_error_propagation_witness :
    (build_image (fun _ => 2) ("img") ("1.10.1")).2 = Except.error 2 ∧
    (build_image (fun _ => 0) ("img") ("1.10.1")).2 = Except.ok () :=
  ⟨(build_image_error_propagation (fun _ => 2) ("img") ("1.10.1")).2.2 (by decide),
   (build_image_error_propagation (fun _ => 0) ("img") ("1.10.1")).2.1 rfl⟩

/-- C9: the default tuning-job name is the fixed prefix string
followed by the `%d-%H-%M-%S` timestamp; distinct rendered timestamps
give distinct names, yet the scheme does not guarantee uniqueness —
the format omits year and month, so distinct creation times (here one
month apart) can collide. -/
theorem job_name_timestamp_scheme :
    (∀ t : Tm, tuning_job_name t = "BYO-keras-tuningjob-" ++ strftime_d_H_M_S t) ∧
    (∀ t1 t2 : Tm, strftime_d_H_M_S t1 ≠ strftime_d_H_M_S t2 →
        tuning_job_name t1 ≠ tuning_job_name t2) ∧
    (∃ t1 t2 : Tm, t1 ≠ t2 ∧ tuning_job_name t1 = tuning_job_name t2) := by
  refine ⟨fun _ => rfl, fun t1 t2 hne he => hne (string_append_left_cancel he),
    ⟨⟨2019, 8, 28, 18, 37, 26⟩, ⟨2019, 9, 28, 18, 37, 26⟩, by decide, by decide⟩⟩

/-- C9 witness: two times whose rendered timestamps differ get
distinct job names. -/
theorem job_name_timestamp_scheme_witness :
    tuning_job_name ⟨2019, 8, 28, 18, 37, 26⟩ ≠ tuning_job_name ⟨2019, 8, 28, 18, 37, 27⟩ :=
  job_name_timestamp_scheme.2.1 ⟨2019, 8, 28, 18, 37, 26⟩ ⟨2019, 8, 28, 18, 37, 27⟩ (by decide)

/-- C10: every submitted static hyperparameter value is exactly the
Python string rendering of the typed value the local smoke-test passes
under the same name (int 32 → "32", bool True → "True", floats 0.1 and
1 → "0.1" and "1"), and the submitted continuous-range bounds are the
string renderings of the rationals 1/10000 and 1/1000. -/
theorem submitted_values_are_string_renderings :
    (static_hyperparameters.map fun kv => some kv.2)
      = (static_hyperparameters.map fun kv => Option.map pyStr (pyLookup hyperparameters kv.1)) ∧
    pyLookup hyperparameters ("batch_size") = some (PyVal.int 32) ∧
    pyLookup hyperparameters ("data_augmentation") = some (PyVal.bool true) ∧
    pyLookup hyperparameters ("learning_rate") = some (PyVal.float (oneOver 10000)) ∧
    tuning_job_config.ParameterRanges.ContinuousParameterRanges
      = [{ Name := "learning_rate", MinValue := ratRepr (oneOver 10000),
           MaxValue := ratRepr (oneOver 1000) }] := by
  refine ⟨by decide, by decide, by decide, by decide, by decide⟩

end KerasCont
